import Mathlib

/-
  Verification development for the guests microservice (src/src/app.ts and
  the unnamed variant src/unnamed/part_000).

  The service exposes three gRPC handlers (checkInGuest,
  getGuestByLastNameAndRoom, incrementWifiLoginCount) over a Supabase-backed
  guest store, and an event bridge (subscribeToGuestEvents) that consumes
  NATS messages on the "guest.update" topic and re-dispatches recognized
  events as IncrementWifiLoginCount RPC calls.

  The store, the room allocator (generateRoomNumber) and the error wrapper
  (generateServiceError) live in repository modules (src/db, src/utils) that
  are not part of the provided sources; those are modelled from the spec, as
  marked in their doc comments. Everything else is translated directly from
  src/src/app.ts.
-/

namespace GuestsService

/-- A row of the "guests" table as the store returns it: columns id,
first_name, last_name, room_number, wifi_login_count. -/
structure Row where
  id : Nat
  first_name : String
  last_name : String
  room_number : Int
  wifi_login_count : Nat
deriving DecidableEq, Repr

/-- The column values that checkInGuest sends to the store's insert
(src/src/app.ts lines 38-42); id and wifi_login_count are store-assigned. -/
structure InsertRow where
  first_name : String
  last_name : String
  room_number : Int
deriving DecidableEq, Repr

/-- An error reported by the Guest Store. -/
structure StoreFailure where
  message : String
deriving DecidableEq, Repr

/-- The gRPC error shape used by the handlers: name, message, code,
details (the metadata field carries no data we track). -/
structure ErrObj where
  name : String
  message : String
  code : Nat
  details : String
deriving DecidableEq, Repr

/-- JavaScript's String.prototype.toLowerCase as the handlers use it:
character-wise simple lowercase mapping. -/
def toLowerCase (s : String) : String := ⟨s.data.map Char.toLower⟩

/-- Modelled from the spec: generateServiceError (src/utils, not among the
provided sources) wraps any Guest Store failure uniformly into the single
RPC error shape, preserving the underlying store error's message for
diagnostics (spec section 7, StoreError). -/
def generateServiceError (e : StoreFailure) : ErrObj :=
  { name := "StoreError", message := e.message, code := 13, details := e.message }

/-- The literal error object built by getGuestByLastNameAndRoom when the
query returned no row (src/src/app.ts lines 77-86). -/
def noUserError : ErrObj :=
  { name := "NoUserError", message := "No user found", code := 13,
    details := "No user found" }

/-- The Guest gRPC message (src/generated/guest). -/
structure Guest where
  id : Nat
  firstName : String
  lastName : String
  roomNumber : Int
  wifiLoginCount : Nat
deriving DecidableEq, Repr

/-- The CheckInGuestResponse gRPC message. -/
structure CheckInGuestResponse where
  roomNumber : Int
deriving DecidableEq, Repr

/-- The IncrementWifiLoginCountResponse gRPC message. -/
structure IncrementWifiLoginCountResponse where
  success : Bool
deriving DecidableEq, Repr

/-- The rows matching the query
select * from guests where last_name = lastName and room_number = roomNumber
(src/src/app.ts lines 62-66; the store is a list of rows). -/
def matchingRows (store : List Row) (lastName : String) (roomNumber : Int) :
    List Row :=
  store.filter fun r => decide (r.last_name = lastName ∧ r.room_number = roomNumber)

/-- Modelled from the spec: the behavior of the store's single-row lookup
(the supabase client behind src/db is not among the provided sources).
Spec section 6 gives findOne(lastName, roomNumber) -> record|none|StoreError,
and section 4.2 assumes "single row or none", with an ambiguous result
surfaced as a store error. -/
def findOneRow (store : List Row) (lastName : String) (roomNumber : Int) :
    Except StoreFailure (Option Row) :=
  match matchingRows store lastName roomNumber with
  | [] => .ok none
  | [r] => .ok (some r)
  | _ => .error { message := "multiple rows returned" }

/-- The getGuestByLastNameAndRoom handler (src/src/app.ts lines 55-100):
lower-cases lastName, queries the store for the composite key with
.single(), maps a store error via generateServiceError, returns the
NoUserError object when no row came back, and otherwise maps the row's
columns onto the Guest message. -/
def getGuestByLastNameAndRoom (store : List Row) (lastName : String)
    (roomNumber : Int) : Except ErrObj Guest :=
  match findOneRow store (toLowerCase lastName) roomNumber with
  | .error e => .error (generateServiceError e)
  | .ok none => .error noUserError
  | .ok (some d) =>
      .ok { id := d.id, firstName := d.first_name, lastName := d.last_name,
            roomNumber := d.room_number, wifiLoginCount := d.wifi_login_count }

/-- The row checkInGuest sends to the store's insert (src/src/app.ts
lines 38-42): both names lower-cased, the allocator's room number. -/
def checkInInsertRow (firstName lastName : String) (roomNumber : Int) :
    InsertRow :=
  { first_name := toLowerCase firstName, last_name := toLowerCase lastName,
    room_number := roomNumber }

/-- The checkInGuest handler's response logic (src/src/app.ts lines 30-53):
roomNumber comes from generateRoomNumber, the insert's outcome from the
store; a store error is wrapped by generateServiceError, success returns
the assigned room number. The handler performs no input validation. -/
def checkInGuest (firstName lastName : String) (roomNumber : Int)
    (insertOutcome : Option StoreFailure) : Except ErrObj CheckInGuestResponse :=
  match insertOutcome with
  | some e => .error (generateServiceError e)
  | none => .ok { roomNumber := roomNumber }

/-- Modelled from the spec: an insert into the Guest Store (section 3:
id is an opaque unique identifier assigned by the store on insert;
wifiLoginCount starts at 0). The fresh id is the store's size. -/
def insertGuestRow (store : List Row) (row : InsertRow) : List Row :=
  store ++ [{ id := store.length, first_name := row.first_name,
              last_name := row.last_name, room_number := row.room_number,
              wifi_login_count := 0 }]

/-- A successful check-in's effect on the store: the row built by
checkInGuest from the request and the allocated room, inserted. -/
def checkInStore (store : List Row) (firstName lastName : String)
    (roomNumber : Int) : List Row :=
  insertGuestRow store (checkInInsertRow firstName lastName roomNumber)

/-- A store operation issued by a handler, as named in the source:
an insert into "guests", the select(...).single() query, or the
increment_wifi_login_count stored procedure call. -/
inductive StoreOp where
  | insert (row : InsertRow)
  | selectSingle (lastName : String) (roomNumber : Int)
  | rpcIncrement (lastNameInput : String) (roomNumberInput : Int)
deriving DecidableEq, Repr

/-- The incrementWifiLoginCount handler (src/src/app.ts lines 102-123):
issues exactly the supabase.rpc("increment_wifi_login_count", ...) call
with the lower-cased lastName and the room number, wraps a store error via
generateServiceError, and otherwise answers success := true. The first
component lists the store operations issued, in order. -/
def incrementWifiLoginCount (lastName : String) (roomNumber : Int)
    (rpcOutcome : Option StoreFailure) :
    List StoreOp × Except ErrObj IncrementWifiLoginCountResponse :=
  ([StoreOp.rpcIncrement (toLowerCase lastName) roomNumber],
   match rpcOutcome with
   | some e => .error (generateServiceError e)
   | none => .ok { success := true })

/-- A JavaScript value as the event bridge sees one: the possible results
of JSON.parse, plus undefined (what a missing property access yields). -/
inductive JsValue where
  | undefinedJs
  | null
  | bool (b : Bool)
  | num (n : Int)
  | str (s : String)
  | obj (fields : List (String × JsValue))

/-- A JavaScript exception as the bridge's loop body can raise one:
a TypeError from a property access on null/undefined, or the
SyntaxError JSON.parse throws on malformed input. -/
inductive JsExn where
  | typeErr (msg : String)
  | parseErr (raw : String)
deriving DecidableEq, Repr

/-- A raw NATS message payload after sc.decode: either a string JSON.parse
rejects, or one that parses to the given value. -/
inductive Payload where
  | malformed (raw : String)
  | wellFormed (v : JsValue)

/-- JSON.parse(sc.decode(msg.data)) (src/src/app.ts line 147): throws
SyntaxError on a malformed payload, otherwise yields the parsed value. -/
def jsonParse : Payload → Except JsExn JsValue
  | .malformed raw => .error (.parseErr raw)
  | .wellFormed v => .ok v

/-- Field lookup in a JavaScript object: the first binding wins; a missing
key yields undefined. -/
def lookupField : List (String × JsValue) → String → JsValue
  | [], _ => .undefinedJs
  | (k, v) :: rest, key => if k = key then v else lookupField rest key

/-- A JavaScript property access x.key: throws TypeError on null or
undefined, looks the key up on an object, and yields undefined on other
primitives (no prototype properties are modelled, none are accessed). -/
def getProp : JsValue → String → Except JsExn JsValue
  | .undefinedJs, key => .error (.typeErr ("cannot read properties of undefined: " ++ key))
  | .null, key => .error (.typeErr ("cannot read properties of null: " ++ key))
  | .obj fields, key => .ok (lookupField fields key)
  | _, _ => .ok .undefinedJs

/-- The strict comparison guestData.event === "increment.wifi.login.count"
(src/src/app.ts line 150): true exactly for that string value. -/
def isIncrementTag : JsValue → Bool
  | .str s => s = "increment.wifi.login.count"
  | _ => false

/-- The IncrementWifiLoginCountRequest the bridge builds (src/src/app.ts
lines 151-154), with the field values exactly as extracted from the
message's data payload. -/
structure BridgeRequest where
  lastName : JsValue
  roomNumber : JsValue

/-- One iteration of the bridge's consumption loop body (src/src/app.ts
lines 146-163): parse the payload, compare the event tag, and for the
recognized tag build the request from guestData.data and issue one
client.incrementWifiLoginCount call (returned as the list of RPC calls
issued for the message). Any step that throws aborts the iteration with
the exception; there is no try/catch in the source. -/
def handleMessage (msg : Payload) : Except JsExn (List BridgeRequest) :=
  match jsonParse msg with
  | .error e => .error e
  | .ok guestData =>
    match getProp guestData "event" with
    | .error e => .error e
    | .ok ev =>
      if isIncrementTag ev then
        match getProp guestData "data" with
        | .error e => .error e
        | .ok d =>
          match getProp d "lastName" with
          | .error e => .error e
          | .ok ln =>
            match getProp d "roomNumber" with
            | .error e => .error e
            | .ok rn => .ok [{ lastName := ln, roomNumber := rn }]
      else .ok []

/-- The for-await consumption loop (src/src/app.ts lines 145-165) over a
finite message sequence: messages are handled in delivery order and the
issued RPC calls accumulate; an exception thrown by the body terminates
the loop (the async function rejects with it) and no later message is
processed. -/
def processMessages : List Payload → Except JsExn (List BridgeRequest)
  | [] => .ok []
  | msg :: rest =>
    match handleMessage msg with
    | .error e => .error e
    | .ok calls =>
      match processMessages rest with
      | .error e => .error e
      | .ok later => .ok (calls ++ later)

/-- The outcome of bindAsync's callback in the source. -/
inductive BindResult where
  | ok (port : Int)
  | err (message : String)
deriving DecidableEq, Repr

/-- The outcome of subscribeToGuestEvents(): the promise resolves once
connect and subscribe succeeded, and rejects if either failed. -/
inductive SubscribeResult where
  | ok
  | err (message : String)
deriving DecidableEq, Repr

/-- What the process observably did at startup: whether any failure
reached the process's failure path (a rethrow, an exit, an unhandled
rejection), what was logged via console.error, and which parts run. -/
structure StartupLog where
  processFailed : Bool
  loggedErrors : List String
  serverRunning : Bool
  bridgeRunning : Bool
deriving DecidableEq, Repr

/-- The startup sequence (src/src/app.ts lines 170-184): bindAsync's
callback logs a bind error and returns; on success it starts the bridge
and attaches .catch(console.error) to subscribeToGuestEvents(), so a
subscription failure is logged and the promise chain ends there. Nothing
in the source exits the process or rethrows, so no failure reaches the
process's failure path. -/
def startup (bind : BindResult) (sub : SubscribeResult) : StartupLog :=
  match bind with
  | .err m =>
      { processFailed := false,
        loggedErrors := ["Failed to bind server: " ++ m],
        serverRunning := false, bridgeRunning := false }
  | .ok _ =>
      match sub with
      | .err m =>
          { processFailed := false,
            loggedErrors := ["Failed to subscribe to guest events: " ++ m],
            serverRunning := true, bridgeRunning := false }
      | .ok =>
          { processFailed := false, loggedErrors := [],
            serverRunning := true, bridgeRunning := true }

/-- Modelled from the spec: generateRoomNumber (src/utils, not among the
provided sources). Spec section 4.1, second acceptable strategy: an atomic
counter/sequence that guarantees no reuse; one call atomically fetches the
current value and advances the counter. -/
def allocateRoom (counter : Nat) : Int × Nat := ((counter : Int), counter + 1)

/-- Modelled from the spec: any concurrent execution of n allocator calls.
Each call is a single atomic fetch-and-add step, so every interleaving is
a serialization of n such steps; the list holds the room number each of
the n calls received, in linearization order. -/
def allocateRooms : Nat → Nat → List Int
  | _, 0 => []
  | c, n + 1 => (allocateRoom c).1 :: allocateRooms (allocateRoom c).2 n

/-- The spec's example of a recognized event message. -/
def incrementDoeEvent : JsValue :=
  .obj [("event", .str "increment.wifi.login.count"),
        ("data", .obj [("lastName", .str "doe"), ("roomNumber", .num 101)])]

/-- A recognized event whose lastName payload carries upper-case letters. -/
def incrementUpperEvent : JsValue :=
  .obj [("event", .str "increment.wifi.login.count"),
        ("data", .obj [("lastName", .str "DOE"), ("roomNumber", .num 101)])]

/- ------------------------------------------------------------------ -/
/- Helper lemmas about the allocator model. -/
/- ------------------------------------------------------------------ -/

theorem allocateRooms_length (c n : Nat) : (allocateRooms c n).length = n := by
  induction n generalizing c with
  | zero => rfl
  | succ n ih => simp [allocateRooms, ih]

theorem allocateRooms_lb (c n : Nat) :
    ∀ x ∈ allocateRooms c n, (c : Int) ≤ x := by
  induction n generalizing c with
  | zero => intro x hx; simp [allocateRooms] at hx
  | succ n ih =>
      intro x hx
      simp only [allocateRooms, allocateRoom, List.mem_cons] at hx
      rcases hx with h | h
      · exact h ▸ le_refl _
      · have hc := ih (c + 1) x h
        push_cast at hc
        omega

theorem allocateRooms_nodup (c n : Nat) : (allocateRooms c n).Nodup := by
  induction n generalizing c with
  | zero => simp [allocateRooms]
  | succ n ih =>
      have hstep : allocateRooms c (n + 1) = (c : Int) :: allocateRooms (c + 1) n := rfl
      rw [hstep]
      refine List.nodup_cons.mpr ⟨?_, ih (c + 1)⟩
      intro hmem
      have hc := allocateRooms_lb (c + 1) n _ hmem
      push_cast at hc
      omega

/- ------------------------------------------------------------------ -/
/- Theorems for the claims. -/
/- ------------------------------------------------------------------ -/

/-- C1: whenever the Guest Store reports zero rows for the normalized
composite key, getGuestByLastNameAndRoom answers with the NoUserError
object, which differs from every store-mapped error produced by
generateServiceError. -/
theorem c1_not_found_distinct (store : List Row) (lastName : String)
    (roomNumber : Int) (m : String)
    (h : matchingRows store (toLowerCase lastName) roomNumber = []) :
    getGuestByLastNameAndRoom store lastName roomNumber = .error noUserError ∧
      noUserError ≠ generateServiceError { message := m } := by
  constructor
  · rw [getGuestByLastNameAndRoom, findOneRow, h]
  · intro hEq
    exact absurd (congrArg ErrObj.name hEq)
      (by decide : ("NoUserError" : String) ≠ "StoreError")

theorem c1_not_found_distinct_witness :
    matchingRows [] (toLowerCase "nobody") 999 = [] ∧
      (getGuestByLastNameAndRoom [] "nobody" 999 = .error noUserError ∧
        noUserError ≠ generateServiceError { message := "backend failure" }) :=
  ⟨rfl, c1_not_found_distinct [] "nobody" 999 "backend failure" rfl⟩

/-- C2: the code's behavior at the failing input. A malformed payload makes
JSON.parse throw inside the for-await body, which has no try/catch, so the
consumption loop terminates with the exception and the well-formed
recognized event queued behind it is never processed — even though that
second message alone would have produced one RPC call. -/
theorem c2_malformed_crashes_loop :
    processMessages
        [Payload.malformed "not json", Payload.wellFormed incrementDoeEvent] =
      .error (JsExn.parseErr "not json") ∧
    handleMessage (Payload.wellFormed incrementDoeEvent) =
      .ok [{ lastName := JsValue.str "doe", roomNumber := JsValue.num 101 }] :=
  ⟨rfl, rfl⟩

/-- C3 counterexample: with the server bound and the subscription failing,
the source's .catch handler logs the failure and the promise chain ends:
nothing reaches the process's failure path (the claim says the failure is
propagated there). -/
theorem c3_counterexample :
    (startup (BindResult.ok 50051)
        (SubscribeResult.err "connection refused")).processFailed = false ∧
    (startup (BindResult.ok 50051)
        (SubscribeResult.err "connection refused")).loggedErrors =
      ["Failed to subscribe to guest events: connection refused"] :=
  ⟨rfl, rfl⟩

/-- C3 amended: a subscription failure at startup is fatal to the bridge
(it does not run) and is logged, but it is caught by the startup handler:
the server keeps running and nothing is propagated to the process's
failure path. -/
theorem c3_subscribe_failure_logged (port : Int) (m : String) :
    startup (BindResult.ok port) (SubscribeResult.err m) =
      { processFailed := false,
        loggedErrors := ["Failed to subscribe to guest events: " ++ m],
        serverRunning := true, bridgeRunning := false } :=
  rfl

/-- C4 counterexample: for a recognized event carrying lastName "DOE", the
single RPC call the bridge issues carries "DOE" verbatim, not the
normalized (lower-cased) form the claim requires. -/
theorem c4_counterexample :
    handleMessage (Payload.wellFormed incrementUpperEvent) =
      .ok [{ lastName := JsValue.str "DOE", roomNumber := JsValue.num 101 }] ∧
    JsValue.str "DOE" ≠ JsValue.str (toLowerCase "DOE") := by
  refine ⟨rfl, fun h => absurd (JsValue.str.inj h) (by decide)⟩

/-- C4 amended: for every message whose event tag equals
"increment.wifi.login.count", the bridge issues exactly one
IncrementWifiLoginCount RPC call, carrying the lastName and roomNumber
values extracted verbatim from the message's data payload (normalization
happens only in the RPC handler), and no other RPC call. -/
theorem c4_recognized_dispatch (fields dataFields : List (String × JsValue))
    (l r : JsValue)
    (hev : lookupField fields "event" =
      JsValue.str "increment.wifi.login.count")
    (hd : lookupField fields "data" = JsValue.obj dataFields)
    (hl : lookupField dataFields "lastName" = l)
    (hr : lookupField dataFields "roomNumber" = r) :
    handleMessage (Payload.wellFormed (JsValue.obj fields)) =
      .ok [{ lastName := l, roomNumber := r }] := by
  simp [handleMessage, jsonParse, getProp, hev, hd, hl, hr, isIncrementTag]

theorem c4_recognized_dispatch_witness :
    lookupField [("event", JsValue.str "increment.wifi.login.count"),
        ("data", JsValue.obj [("lastName", JsValue.str "doe"),
          ("roomNumber", JsValue.num 101)])] "event" =
      JsValue.str "increment.wifi.login.count" ∧
    handleMessage (Payload.wellFormed incrementDoeEvent) =
      .ok [{ lastName := JsValue.str "doe", roomNumber := JsValue.num 101 }] :=
  ⟨rfl, c4_recognized_dispatch _ _ _ _ rfl rfl rfl rfl⟩

/-- C5: a message carrying any event tag the strict comparison rejects
produces no RPC call and no error: the body skips it and yields nothing. -/
theorem c5_unrecognized_noop (fields : List (String × JsValue))
    (h : isIncrementTag (lookupField fields "event") = false) :
    handleMessage (Payload.wellFormed (JsValue.obj fields)) = .ok [] := by
  simp [handleMessage, jsonParse, getProp, h]

theorem c5_unrecognized_noop_witness :
    isIncrementTag (lookupField [("event", JsValue.str "guest.checked.out"),
        ("data", JsValue.obj [])] "event") = false ∧
    handleMessage (Payload.wellFormed (JsValue.obj
        [("event", JsValue.str "guest.checked.out"),
         ("data", JsValue.obj [])])) = .ok [] :=
  ⟨rfl, c5_unrecognized_noop _ rfl⟩

/-- C6: a successful check-in inserts exactly the lower-cased firstName,
the lower-cased lastName and the allocator's room number, and answers with
that same room number; the spec's two casings of Jane Doe produce
identical insert rows. -/
theorem c6_checkin_normalizes (firstName lastName : String) (roomNumber : Int) :
    checkInInsertRow firstName lastName roomNumber =
      { first_name := toLowerCase firstName, last_name := toLowerCase lastName,
        room_number := roomNumber } ∧
    checkInGuest firstName lastName roomNumber none =
      .ok { roomNumber := roomNumber } ∧
    checkInInsertRow "Jane" "DOE" roomNumber =
      checkInInsertRow "jane" "doe" roomNumber :=
  ⟨rfl, rfl, rfl⟩

/-- C7: after a check-in on an empty store assigned room R, a lookup with
any casing variant of the lastName and R succeeds with the stored record
(lower-cased names, the assigned room, count zero). -/
theorem c7_lookup_case_insensitive (firstName lastName s : String)
    (roomNumber : Int) (h : toLowerCase s = toLowerCase lastName) :
    getGuestByLastNameAndRoom (checkInStore [] firstName lastName roomNumber)
        s roomNumber =
      .ok { id := 0, firstName := toLowerCase firstName,
            lastName := toLowerCase lastName, roomNumber := roomNumber,
            wifiLoginCount := 0 } := by
  simp [getGuestByLastNameAndRoom, findOneRow, matchingRows, checkInStore,
    insertGuestRow, checkInInsertRow, h]

theorem c7_lookup_case_insensitive_witness :
    toLowerCase "SMITH" = toLowerCase "Smith" ∧
    getGuestByLastNameAndRoom (checkInStore [] "John" "Smith" 7) "SMITH" 7 =
      .ok { id := 0, firstName := "john", lastName := "smith",
            roomNumber := 7, wifiLoginCount := 0 } :=
  ⟨rfl, c7_lookup_case_insensitive "John" "Smith" "SMITH" 7 rfl⟩

/-- C8: incrementWifiLoginCount issues exactly one store operation — the
atomic increment keyed by the lower-cased lastName and the room number,
with no preceding read — and answers success := true precisely when the
store reported no error; a store error is returned mapped. -/
theorem c8_increment_atomic_only (lastName : String) (roomNumber : Int)
    (rpcOutcome : Option StoreFailure) :
    (incrementWifiLoginCount lastName roomNumber rpcOutcome).1 =
      [StoreOp.rpcIncrement (toLowerCase lastName) roomNumber] ∧
    (incrementWifiLoginCount lastName roomNumber rpcOutcome).2 =
      (match rpcOutcome with
       | some e => .error (generateServiceError e)
       | none => .ok { success := true }) ∧
    ((incrementWifiLoginCount lastName roomNumber rpcOutcome).2 =
        .ok { success := true } ↔ rpcOutcome = none) := by
  refine ⟨rfl, rfl, ?_⟩
  cases rpcOutcome <;> simp [incrementWifiLoginCount]

/-- C9: any concurrent execution of n room allocations is a serialization
of n atomic fetch-and-add steps; the n calls receive pairwise-distinct
room numbers, and each successful check-in returns the room it was
allocated unchanged. -/
theorem c9_rooms_distinct (firstName lastName : String) (c n : Nat) :
    (allocateRooms c n).length = n ∧
    (allocateRooms c n).Nodup ∧
    ((allocateRooms c n).map fun room =>
        checkInGuest firstName lastName room none) =
      ((allocateRooms c n).map fun room =>
        .ok { roomNumber := room }) :=
  ⟨allocateRooms_length c n, allocateRooms_nodup c n, rfl⟩

/-- C10: checkInGuest validates nothing: with empty names the insert row is
built from the (empty) lower-cased strings, the call succeeds whenever the
store's insert succeeds, and the only possible error is the store-mapped
one. -/
theorem c10_no_validation (firstName lastName : String) (roomNumber : Int)
    (insertOutcome : Option StoreFailure) :
    checkInInsertRow "" "" roomNumber =
      { first_name := "", last_name := "", room_number := roomNumber } ∧
    checkInGuest "" "" roomNumber none = .ok { roomNumber := roomNumber } ∧
    (checkInGuest firstName lastName roomNumber insertOutcome =
        .ok { roomNumber := roomNumber } ∨
      ∃ e : StoreFailure, insertOutcome = some e ∧
        checkInGuest firstName lastName roomNumber insertOutcome =
          .error (generateServiceError e)) := by
  refine ⟨rfl, rfl, ?_⟩
  cases insertOutcome with
  | none => exact Or.inl rfl
  | some e => exact Or.inr ⟨e, rfl, rfl⟩

end GuestsService
